import Mathlib

/-
  Shallow embedding of the PROOV_ZK capsule core:
  - src/components/make/Web3SaltGenerator.tsx  (salt generator, commitment
    builder, claim derivers, capsule assembler, private-vault store)
  - src/components/gallery/ShareModal.tsx      (claim revision protocol)
  - src/app/(tabs)/verify.tsx                  (verifier-side parser, time lock)

  Embedding conventions:
  - JS `Record<string,string>` objects are insertion-ordered association lists
    (`Rec`), property assignment is `rset` (overwrite-or-append) and property
    read is `rget` (`none` = `undefined`).
  - JS numbers used by the modeled code are integers (epoch milliseconds,
    hash accumulators); the int32 coercion performed by JS bitwise operators
    is made explicit (`toInt32`).  GPS coordinates are `Float` but are only
    ever rendered to strings through the opaque environment.
  - Effects are explicit parameters: `Math.random()` is a stream of rationals
    in [0,1), `AsyncStorage` is a lookup/store function, `Date.now()` and the
    locale/date formatting methods (`toLocaleString`, `toISOString`, ...) come
    from a `JsEnv` record of opaque functions.
  - `charCodeAt` is modeled by the character's code point (they agree on the
    basic multilingual plane, which covers every string the app produces).
-/

/-- JS ToInt32: the coercion applied by every JS bitwise operator
    (`hash << 5` and `hash & hash` in `generateSimpleHash`). -/
def toInt32 (n : Int) : Int := (n + 2 ^ 31) % 2 ^ 32 - 2 ^ 31

/-- One iteration of the `generateSimpleHash` loop:
    `hash = ((hash << 5) - hash) + char; hash = hash & hash`. -/
def hashStep (hash : Int) (c : Char) : Int :=
  toInt32 (toInt32 (hash * 32) - hash + c.toNat)

/-- `generateSimpleHash` (Web3SaltGenerator.tsx lines 918-926; the identical
    copy in ShareModal.tsx lines 1079-1087): the non-cryptographic string hash,
    `Math.abs(hash).toString(16)` rendered in lowercase hexadecimal. -/
def generateSimpleHash (input : String) : String :=
  (Nat.toDigits 16 (input.data.foldl hashStep 0).natAbs).asString

/-- `poseidonCommitment` (Web3SaltGenerator.tsx lines 1086-1091): the simulated
    commitment, `generateSimpleHash(value + salt)`. -/
def poseidonCommitment (value salt : String) : String :=
  generateSimpleHash (value ++ salt)

/-- A `Math.random()` source: one rational per call. -/
def RandSrc : Type := Nat → ℚ

/-- The contract of `Math.random()`: every drawn value lies in [0,1). -/
def validRand (rnd : RandSrc) : Prop := ∀ i, 0 ≤ rnd i ∧ rnd i < 1

/-- `generateSalt` (Web3SaltGenerator.tsx lines 1076-1083): a digit string of
    length `6 + Math.floor(Math.random()*4)`; draw 0 picks the length and
    draw `i+1` picks digit `i` via `Math.floor(Math.random()*10).toString()`. -/
def generateSalt (rnd : RandSrc) : String :=
  let length := 6 + (Int.floor (rnd 0 * 4)).toNat
  String.mk ((List.range length).map fun i => Nat.digitChar (Int.floor (rnd (i + 1) * 10)).toNat)

/-- JS `Record<string,string>`, as an insertion-ordered association list. -/
abbrev Rec : Type := List (String × String)

/-- The empty object literal. -/
def rempty : Rec := []

/-- JS property assignment `obj[k] = v`: overwrite in place, or append. -/
def rset (r : Rec) (k v : String) : Rec :=
  match r with
  | [] => [(k, v)]
  | p :: t => if p.1 = k then (k, v) :: t else p :: rset t k v

/-- JS property read `obj[k]`; `none` is `undefined`. -/
def rget (r : Rec) (k : String) : Option String :=
  match r with
  | [] => none
  | p :: t => if p.1 = k then some p.2 else rget t k

/-- Whether a key is present in the object. -/
def hasKey (r : Rec) (k : String) : Bool := (rget r k).isSome

/-- The `location` sub-object of the photo metadata. -/
structure Location where
  latitude : Float
  longitude : Float
  city : Option String
  country : Option String
  continent : Option String

/-- `PhotoMetadata` (Web3SaltGenerator.tsx lines 822-840), restricted to the
    fields read by the modeled functions. -/
structure PhotoMetadata where
  timestamp : Int
  location : Option Location
  deviceInfo : String
  photoHash : String
  ipfsCid : Option String

/-- Opaque JS runtime services: locale/date formatting, number rendering,
    `Platform.OS`, `JSON.stringify` of the metadata object.  The modeled code
    never inspects these strings, so they are arbitrary functions. -/
structure JsEnv where
  toLocaleString : Int → String
  toLocaleDateString : Int → String
  monthYearString : Int → String
  toISOString : Int → String
  getFullYear : Int → Int
  getHours : Int → Int
  weekStartDateString : Int → String
  numString : Float → String
  toFixed6 : Float → String
  platformOS : String
  stringifyMetadata : PhotoMetadata → String

/-- `generateTimeClaim` (Web3SaltGenerator.tsx lines 928-949): level keyed by
    the raw strings of the switch statement, with its default branch. -/
def generateTimeClaim (env : JsEnv) (timestamp : Int) (level : String) : String :=
  if level = "exact" then "At " ++ env.toLocaleString timestamp
  else if level = "hour" then
    "Within hour of " ++ ((env.toLocaleString timestamp).splitOn ",").headD "" ++ " "
      ++ toString (env.getHours timestamp) ++ ":00"
  else if level = "day" then "On " ++ env.toLocaleDateString timestamp
  else if level = "week" then "Week of " ++ env.weekStartDateString timestamp
  else if level = "month" then "In " ++ env.monthYearString timestamp
  else if level = "year" then "In " ++ toString (env.getFullYear timestamp)
  else "Within past month"

/-- `generateLocationClaim` (Web3SaltGenerator.tsx lines 951-966).
    `location.city || 'In local city'` returns the fallback both when the
    field is absent and when it is the (falsy) empty string. -/
def generateLocationClaim (env : JsEnv) (location : Option Location) (level : String) : String :=
  match location with
  | none => "Location not available"
  | some loc =>
    if level = "exact" then
      "At " ++ env.toFixed6 loc.latitude ++ ", " ++ env.toFixed6 loc.longitude
    else if level = "city" then
      match loc.city with
      | some c => if c.isEmpty then "In local city" else c
      | none => "In local city"
    else if level = "country" then
      match loc.country with
      | some c => if c.isEmpty then "In authorized country" else c
      | none => "In authorized country"
    else if level = "continent" then
      match loc.continent with
      | some c => if c.isEmpty then "In authorized continent" else c
      | none => "In authorized continent"
    else
      match loc.country with
      | some c => if c.isEmpty then "In authorized region" else "In " ++ c
      | none => "In authorized region"

/-- `generateDeviceClaim` (Web3SaltGenerator.tsx lines 968-979).
    `deviceInfo.includes('iOS')` is modeled with substring containment. -/
def generateDeviceClaim (deviceInfo : String) (level : String) : String :=
  if level = "devicetype" then "From Phone"
  else if level = "platform" then
    "From " ++ (if (deviceInfo.splitOn "iOS").length > 1 then "iOS" else "Android") ++ " device"
  else if level = "imei" then
    "From device IMEI: " ++ (generateSimpleHash deviceInfo).take 8 ++ "****"
  else "From trusted device"

/-- `generateImageContentClaim` (Web3SaltGenerator.tsx lines 981-992). -/
def generateImageContentClaim (level : String) (ipfsCid : Option String) : String :=
  if level = "none" then "Image content private"
  else if level = "description" then "Image description available"
  else if level = "image" then
    match ipfsCid with
    | some c => if c.isEmpty then "Image content revealed" else "Image available on IPFS"
    | none => "Image content revealed"
  else "Image content private"

/-- The `timeProof.level` union type of `PrivacySettings`
    (Web3SaltGenerator.tsx lines 842-882). -/
inductive TimeLevel where
  | exact | hour | day | week | month | year
deriving DecidableEq

/-- The `locationProof.level` union type. -/
inductive LocationLevel where
  | exact | city | country | continent
deriving DecidableEq

/-- The `deviceProof.level` union type. -/
inductive DeviceLevel where
  | devicetype | platform | imei
deriving DecidableEq

/-- The `imageReveal.level` union type. -/
inductive ImageLevel where
  | noreveal | description | image
deriving DecidableEq

/-- The `timeLock.lockType` union type. -/
inductive LockType where
  | date | location | identity | content
deriving DecidableEq

/-- The `storageOptions.type` union type. -/
inductive StorageType where
  | ipfs | walrus
deriving DecidableEq

/-- The literal string each `TimeLevel` value denotes in the source. -/
def TimeLevel.str : TimeLevel → String
  | .exact => "exact"
  | .hour => "hour"
  | .day => "day"
  | .week => "week"
  | .month => "month"
  | .year => "year"

def LocationLevel.str : LocationLevel → String
  | .exact => "exact"
  | .city => "city"
  | .country => "country"
  | .continent => "continent"

def DeviceLevel.str : DeviceLevel → String
  | .devicetype => "devicetype"
  | .platform => "platform"
  | .imei => "imei"

def ImageLevel.str : ImageLevel → String
  | .noreveal => "none"
  | .description => "description"
  | .image => "image"

def LockType.str : LockType → String
  | .date => "date"
  | .location => "location"
  | .identity => "identity"
  | .content => "content"

/-- `PrivacySettings` (Web3SaltGenerator.tsx lines 842-882).
    `timeLock.unlockTime : Date | null` is an optional epoch-millisecond value
    (a `Date` object is truthy whenever non-null). -/
structure PrivacySettings where
  timeProofEnabled : Bool
  timeProofLevel : TimeLevel
  locationProofEnabled : Bool
  locationProofLevel : LocationLevel
  deviceProofEnabled : Bool
  deviceProofLevel : DeviceLevel
  identityProofEnabled : Bool
  imageRevealEnabled : Bool
  imageRevealLevel : ImageLevel
  timeLockEnabled : Bool
  timeLockUnlockTime : Option Int
  timeLockLockedData : String
  timeLockLockType : LockType
  receiverLockEnabled : Bool
  receiverLockWalletAddress : String
  receiverLockEncryptedContent : String
  saveForFutureEnabled : Bool
  storageOptionsType : StorageType
  storageOptionsWalrusBlobId : Option String
  storageOptionsIpfsCid : Option String
  storageOptionsIpfsUrl : Option String

/-- The object literal returned by `generateAllSalts`
    (Web3SaltGenerator.tsx lines 1133-1151): fifteen fresh salts. -/
structure Salts where
  date_exact : String
  date_day : String
  date_month : String
  date_year : String
  location_exact : String
  location_city : String
  location_country : String
  location_continent : String
  device_info : String
  device_platform : String
  device_type : String
  image_hash : String
  image_cid : String
  time_lock : String
  receiver_lock : String

/-- `generateAllSalts` (Web3SaltGenerator.tsx lines 1133-1151): the fifteen
    sequential `generateSalt()` calls, each drawing from its own fresh
    random stream (call i uses stream `rnd i`). -/
def generateAllSalts (rnd : Nat → RandSrc) : Salts where
  date_exact := generateSalt (rnd 0)
  date_day := generateSalt (rnd 1)
  date_month := generateSalt (rnd 2)
  date_year := generateSalt (rnd 3)
  location_exact := generateSalt (rnd 4)
  location_city := generateSalt (rnd 5)
  location_country := generateSalt (rnd 6)
  location_continent := generateSalt (rnd 7)
  device_info := generateSalt (rnd 8)
  device_platform := generateSalt (rnd 9)
  device_type := generateSalt (rnd 10)
  image_hash := generateSalt (rnd 11)
  image_cid := generateSalt (rnd 12)
  time_lock := generateSalt (rnd 13)
  receiver_lock := generateSalt (rnd 14)

/-- The `salts` object as stored into the vault (`Record<string,string>`),
    in the key order of the object literal. -/
def Salts.toRec (s : Salts) : Rec :=
  [("date_exact", s.date_exact), ("date_day", s.date_day),
   ("date_month", s.date_month), ("date_year", s.date_year),
   ("location_exact", s.location_exact), ("location_city", s.location_city),
   ("location_country", s.location_country), ("location_continent", s.location_continent),
   ("device_info", s.device_info), ("device_platform", s.device_platform),
   ("device_type", s.device_type), ("image_hash", s.image_hash),
   ("image_cid", s.image_cid), ("time_lock", s.time_lock),
   ("receiver_lock", s.receiver_lock)]

/-- `generateCommitments` (Web3SaltGenerator.tsx lines 1094-1130).
    The optional location/image sub-fields are committed only when truthy
    (present and non-empty). -/
def generateCommitments (env : JsEnv) (m : PhotoMetadata) (salts : Salts) : Rec :=
  let c := rset rempty "date_exact" (poseidonCommitment (env.toISOString m.timestamp) salts.date_exact)
  let c := rset c "date_day" (poseidonCommitment (env.toLocaleDateString m.timestamp) salts.date_day)
  let c := rset c "date_month" (poseidonCommitment (env.monthYearString m.timestamp) salts.date_month)
  let c := rset c "date_year" (poseidonCommitment (toString (env.getFullYear m.timestamp)) salts.date_year)
  let c := match m.location with
    | some loc =>
      let c := rset c "location_exact"
        (poseidonCommitment (env.numString loc.latitude ++ ", " ++ env.numString loc.longitude) salts.location_exact)
      let c := match loc.city with
        | some ci => if ci.isEmpty then c else rset c "location_city" (poseidonCommitment ci salts.location_city)
        | none => c
      let c := match loc.country with
        | some co => if co.isEmpty then c else rset c "location_country" (poseidonCommitment co salts.location_country)
        | none => c
      match loc.continent with
        | some cn => if cn.isEmpty then c else rset c "location_continent" (poseidonCommitment cn salts.location_continent)
        | none => c
    | none => c
  let c := rset c "device_info" (poseidonCommitment m.deviceInfo salts.device_info)
  let c := rset c "device_platform" (poseidonCommitment env.platformOS salts.device_platform)
  let c := rset c "device_type" (poseidonCommitment "Phone" salts.device_type)
  let c := rset c "image_hash" (poseidonCommitment m.photoHash salts.image_hash)
  match m.ipfsCid with
  | some cid => if cid.isEmpty then c else rset c "image_cid" (poseidonCommitment cid salts.image_cid)
  | none => c

/-- `generateOriginalValues` (Web3SaltGenerator.tsx lines 1251-1289). -/
def generateOriginalValues (env : JsEnv) (m : PhotoMetadata) (s : PrivacySettings) : Rec :=
  let v := rset rempty "date_exact" (env.toISOString m.timestamp)
  let v := rset v "date_day" (env.toLocaleDateString m.timestamp)
  let v := rset v "date_month" (env.monthYearString m.timestamp)
  let v := rset v "date_year" (toString (env.getFullYear m.timestamp))
  let v := match m.location with
    | some loc =>
      let v := rset v "location_exact" (env.numString loc.latitude ++ ", " ++ env.numString loc.longitude)
      let v := match loc.city with
        | some ci => if ci.isEmpty then v else rset v "location_city" ci
        | none => v
      let v := match loc.country with
        | some co => if co.isEmpty then v else rset v "location_country" co
        | none => v
      match loc.continent with
        | some cn => if cn.isEmpty then v else rset v "location_continent" cn
        | none => v
    | none => v
  let v := rset v "device_info" m.deviceInfo
  let v := rset v "device_platform" env.platformOS
  let v := rset v "device_type" "Phone"
  let v := rset v "image_hash" m.photoHash
  let v := match m.ipfsCid with
    | some cid => if cid.isEmpty then v else rset v "image_cid" cid
    | none => v
  let v := if s.timeLockEnabled && !s.timeLockLockedData.isEmpty then
      rset v "time_lock_data" s.timeLockLockedData else v
  if s.receiverLockEnabled && !s.receiverLockEncryptedContent.isEmpty then
    rset v "receiver_lock_data" s.receiverLockEncryptedContent else v

/-- Time block of `generatePublicClaims` (Web3SaltGenerator.tsx lines
    1158-1174).  The switch has no case for the `hour` and `week` levels, so
    they add nothing. -/
def addTimeClaims (env : JsEnv) (m : PhotoMetadata) (s : PrivacySettings) (pc : Rec) : Rec :=
  if s.timeProofEnabled then
    match s.timeProofLevel with
    | .exact => rset pc "date_exact" (env.toISOString m.timestamp)
    | .day => rset pc "date_day" (env.toLocaleDateString m.timestamp)
    | .month => rset pc "date_month" (env.monthYearString m.timestamp)
    | .year => rset pc "date_year" (toString (env.getFullYear m.timestamp))
    | _ => pc
  else pc

/-- Location block of `generatePublicClaims` (lines 1177-1198); the sub-field
    of the chosen level is published only when truthy. -/
def addLocationClaims (env : JsEnv) (m : PhotoMetadata) (s : PrivacySettings) (pc : Rec) : Rec :=
  if s.locationProofEnabled then
    match m.location with
    | some loc =>
      match s.locationProofLevel with
      | .exact => rset pc "location_exact" (env.numString loc.latitude ++ ", " ++ env.numString loc.longitude)
      | .city =>
        match loc.city with
        | some c => if c.isEmpty then pc else rset pc "location_city" c
        | none => pc
      | .country =>
        match loc.country with
        | some c => if c.isEmpty then pc else rset pc "location_country" c
        | none => pc
      | .continent =>
        match loc.continent with
        | some c => if c.isEmpty then pc else rset pc "location_continent" c
        | none => pc
    | none => pc
  else pc

/-- Device block of `generatePublicClaims` (lines 1201-1213). -/
def addDeviceClaims (env : JsEnv) (m : PhotoMetadata) (s : PrivacySettings) (pc : Rec) : Rec :=
  if s.deviceProofEnabled then
    match s.deviceProofLevel with
    | .devicetype => rset pc "device_type" "Phone"
    | .platform => rset pc "device_platform" env.platformOS
    | .imei => rset pc "device_info" m.deviceInfo
  else pc

/-- Identity block of `generatePublicClaims` (lines 1216-1218). -/
def addIdentityClaims (s : PrivacySettings) (pc : Rec) : Rec :=
  if s.identityProofEnabled then rset pc "identity_verified" "true" else pc

/-- Image block of `generatePublicClaims` (lines 1221-1232). -/
def addImageClaims (m : PhotoMetadata) (s : PrivacySettings) (pc : Rec) : Rec :=
  if s.imageRevealEnabled then
    match s.imageRevealLevel with
    | .description => rset pc "image_description" "Image description available"
    | .image =>
      match m.ipfsCid with
      | some c => if c.isEmpty then pc else rset pc "image_cid" c
      | none => pc
    | .noreveal => pc
  else pc

/-- Time-lock block of `generatePublicClaims` (lines 1235-1239): publishes the
    unlock time and lock type when the lock is enabled and `unlockTime` is a
    (truthy) `Date`; the locked payload itself is never published. -/
def addTimeLockClaims (env : JsEnv) (s : PrivacySettings) (pc : Rec) : Rec :=
  if s.timeLockEnabled then
    match s.timeLockUnlockTime with
    | some t => rset (rset pc "time_lock_until" (env.toISOString t)) "time_lock_type" s.timeLockLockType.str
    | none => pc
  else pc

/-- Receiver-lock block of `generatePublicClaims` (lines 1242-1245). -/
def addReceiverLockClaims (s : PrivacySettings) (pc : Rec) : Rec :=
  if s.receiverLockEnabled && !s.receiverLockWalletAddress.isEmpty then
    rset pc "allowed_address" s.receiverLockWalletAddress
  else pc

/-- `generatePublicClaims` (Web3SaltGenerator.tsx lines 1154-1248): the blocks
    run in source order, each mutating the same object. -/
def generatePublicClaims (env : JsEnv) (m : PhotoMetadata) (s : PrivacySettings) : Rec :=
  addReceiverLockClaims s
    (addTimeLockClaims env s
      (addImageClaims m s
        (addIdentityClaims s
          (addDeviceClaims env m s
            (addLocationClaims env m s
              (addTimeClaims env m s rempty))))))

/-- `PrivateVault` (Web3SaltGenerator.tsx lines 903-908). -/
structure PrivateVault where
  capsule_id : String
  commitments : Rec
  salts : Rec
  original_values : Rec

/-- `G1` (modules/mopro/index.ts lines 10-14). -/
structure G1 where
  x : String
  y : String
  z : String
deriving DecidableEq

/-- `G2` (modules/mopro/index.ts lines 17-21). -/
structure G2 where
  x : List String
  y : List String
  z : List String
deriving DecidableEq

/-- `CircomProof` (modules/mopro/index.ts lines 24-30): opaque to the capsule
    core beyond structural presence. -/
structure CircomProof where
  a : G1
  b : G2
  c : G1
  protocol : String
  curve : String
deriving DecidableEq

/-- The `metadata` sub-object of `ZKCapsule`
    (Web3SaltGenerator.tsx lines 889-899). -/
structure CapsuleMetadata where
  proof_scheme : String
  circuit_version : String
  image_hash : String
  verification_key : String
  ipfsCid : Option String
  ipfsUrl : Option String
  walrusBlobId : Option String
  storageType : Option StorageType
  created_at : Int

/-- `ZKCapsule` (Web3SaltGenerator.tsx lines 885-900). -/
structure ZKCapsule where
  capsule_id : String
  public_claims : Rec
  proof : CircomProof
  metadata : CapsuleMetadata

/-- `storePrivateVault` (Web3SaltGenerator.tsx lines 1292-1314).  The body is
    wrapped in `try { await AsyncStorage.setItem(...) } catch (error) {
    console.error(...) }`: a storage failure is caught and only logged, so the
    function returns normally in every case.  The storage primitive `setItem`
    (AsyncStorage plus `JSON.stringify`) is an explicit parameter that may
    fail. -/
def storePrivateVault (setItem : String → PrivateVault → Except String Unit)
    (capsuleId : String) (commitments salts originalValues : Rec) : Except String Unit :=
  let privateVault : PrivateVault :=
    { capsule_id := capsuleId
      commitments := commitments
      salts := salts
      original_values := originalValues }
  match setItem ("@private_vault_" ++ capsuleId) privateVault with
  | Except.ok _ => Except.ok ()
  | Except.error _ => Except.ok ()

/-- `timeWithinMonth.toString()` and friends: JS boolean rendering. -/
def boolStr : Bool → String
  | true => "true"
  | false => "false"

/-- The five optional circuit-result claims added by `generateZKCapsule`
    (Web3SaltGenerator.tsx lines 1362-1366); each is added only when the
    corresponding argument is not `undefined`. -/
def addCircuitResults (tWM lIR dT pA iCR : Option Bool) (pc : Rec) : Rec :=
  let pc := match tWM with | some b => rset pc "time_within_month" (boolStr b) | none => pc
  let pc := match lIR with | some b => rset pc "location_in_region" (boolStr b) | none => pc
  let pc := match dT with | some b => rset pc "device_trusted" (boolStr b) | none => pc
  let pc := match pA with | some b => rset pc "photo_authentic" (boolStr b) | none => pc
  match iCR with | some b => rset pc "image_content_revealed" (boolStr b) | none => pc

/-- The `claims` argument of `generateZKCapsule`: the five human-readable
    claim strings assembled by `generateZKProof`
    (Web3SaltGenerator.tsx lines 1487-1503). -/
structure HumanClaims where
  time_claim : String
  location_claim : String
  device_claim : String
  authenticity_claim : String
  image_content_claim : String

/-- The human-readable claims block of `generateZKCapsule` (lines 1369-1375);
    each claim is added only when truthy (non-empty). -/
def addHumanClaims (claims : Option HumanClaims) (pc : Rec) : Rec :=
  match claims with
  | none => pc
  | some cl =>
    let pc := if cl.time_claim.isEmpty then pc else rset pc "time_claim" cl.time_claim
    let pc := if cl.location_claim.isEmpty then pc else rset pc "location_claim" cl.location_claim
    let pc := if cl.device_claim.isEmpty then pc else rset pc "device_claim" cl.device_claim
    let pc := if cl.authenticity_claim.isEmpty then pc else
      rset pc "authenticity_claim" cl.authenticity_claim
    if cl.image_content_claim.isEmpty then pc else
      rset pc "image_content_claim" cl.image_content_claim

/-- `generateZKCapsule` (Web3SaltGenerator.tsx lines 1317-1399).  `now` is the
    `Date.now()` reading used for the capsule id; `rnd` supplies the salt
    randomness; `setItem` is the vault storage primitive.  The result is
    `Except` so that a storage exception escaping `storePrivateVault` would
    propagate — the stored-vault match is where the all-or-nothing behaviour
    of the claim would live. -/
def generateZKCapsule (env : JsEnv) (rnd : Nat → RandSrc)
    (setItem : String → PrivateVault → Except String Unit) (now : Nat)
    (m : PhotoMetadata) (s : PrivacySettings) (proof : CircomProof)
    (verificationKey : String) (ipfsCid ipfsUrl : Option String)
    (currentTime : Option Int) (_metadataHash : Option String)
    (timeWithinMonth locationInRegion deviceTrusted photoAuthentic imageContentRevealed : Option Bool)
    (claims : Option HumanClaims) : Except String ZKCapsule :=
  let capsuleId := generateSimpleHash (m.photoHash ++ toString now)
  let salts := generateAllSalts rnd
  let originalValues := generateOriginalValues env m s
  let commitments := generateCommitments env m salts
  let commitments := if s.timeLockEnabled && !s.timeLockLockedData.isEmpty then
      rset commitments "time_lock_data" (poseidonCommitment s.timeLockLockedData salts.time_lock)
    else commitments
  let commitments := if s.receiverLockEnabled && !s.receiverLockEncryptedContent.isEmpty then
      rset commitments "receiver_lock_data"
        (poseidonCommitment s.receiverLockEncryptedContent salts.receiver_lock)
    else commitments
  match storePrivateVault setItem capsuleId commitments salts.toRec originalValues with
  | Except.error e => Except.error e
  | Except.ok _ =>
    let publicClaims := generatePublicClaims env m s
    let publicClaims := addCircuitResults timeWithinMonth locationInRegion deviceTrusted
      photoAuthentic imageContentRevealed publicClaims
    let publicClaims := addHumanClaims claims publicClaims
    Except.ok
      { capsule_id := capsuleId
        public_claims := publicClaims
        proof := proof
        metadata :=
          { proof_scheme := "circom 2"
            circuit_version := "multiplier2_v1"
            image_hash := m.photoHash
            verification_key := verificationKey
            ipfsCid := ipfsCid
            ipfsUrl := ipfsUrl
            walrusBlobId := s.storageOptionsWalrusBlobId
            storageType := some s.storageOptionsType
            created_at :=
              match currentTime with
              | some t => if t = 0 then (now : Int) else t
              | none => (now : Int) } }

/-- The capsule-generation step of `generateZKProof` (Web3SaltGenerator.tsx
    lines 1483-1588): computes the human-readable claims and the circuit-result
    flags from the metadata and privacy settings, then invokes
    `generateZKCapsule` with all optional arguments supplied. -/
def generateZKProofPipeline (env : JsEnv) (rnd : Nat → RandSrc)
    (setItem : String → PrivateVault → Except String Unit) (now : Nat) (currentTime : Int)
    (m : PhotoMetadata) (s : PrivacySettings) (proof : CircomProof)
    (verificationKey : String) (ipfsCid ipfsUrl : Option String) : Except String ZKCapsule :=
  let oneMonthAgo := currentTime - 30 * 24 * 60 * 60 * 1000
  let claims : HumanClaims :=
    { time_claim := if s.timeProofEnabled then
        generateTimeClaim env m.timestamp s.timeProofLevel.str else "Time not verified"
      location_claim := if s.locationProofEnabled && m.location.isSome then
        generateLocationClaim env m.location s.locationProofLevel.str else "Location not verified"
      device_claim := if s.deviceProofEnabled then
        generateDeviceClaim m.deviceInfo s.deviceProofLevel.str else "Device not verified"
      authenticity_claim := if s.identityProofEnabled then "Identity verified" else "Identity not verified"
      image_content_claim := if s.imageRevealEnabled then
        generateImageContentClaim s.imageRevealLevel.str ipfsCid else "Image content private" }
  let metadataHash := generateSimpleHash (env.stringifyMetadata m)
  let timeWithinMonth := s.timeProofEnabled && decide (m.timestamp > oneMonthAgo)
  let locationInRegion := s.locationProofEnabled && m.location.isSome
  let deviceTrusted := s.deviceProofEnabled
  let photoAuthentic := s.identityProofEnabled
  let imageContentRevealed := s.imageRevealEnabled && decide (s.imageRevealLevel ≠ ImageLevel.noreveal)
  generateZKCapsule env rnd setItem now m s proof verificationKey ipfsCid ipfsUrl
    (some currentTime) (some metadataHash) (some timeWithinMonth) (some locationInRegion)
    (some deviceTrusted) (some photoAuthentic) (some imageContentRevealed) (some claims)

/-- The `metadata` sub-object of `SavedPhoto` (ShareModal.tsx lines 874-887). -/
structure SavedPhotoMeta where
  location : Option Location
  deviceInfo : String
  photoHash : String
  ipfsCid : Option String
  isVideo : Option Bool
  duration : Option Int

/-- `SavedPhoto` (ShareModal.tsx lines 870-902). -/
structure SavedPhoto where
  id : String
  timestamp : Int
  photoUri : String
  metadata : SavedPhotoMeta
  zkCapsule : ZKCapsule

/-- The `revealedClaims` component state of `PhotoDetailsModal`
    (ShareModal.tsx lines 924-930). -/
structure RevealedClaims where
  time : Bool
  location : Bool
  device : Bool
  authentic : Bool
  image : Bool

/-- The `selectedLevels` component state (ShareModal.tsx lines 933-936). -/
structure SelectedLevels where
  time : String
  location : String

/-- `generateUpdatedCapsule` (ShareModal.tsx lines 1090-1138), the claim
    revision step.  The `try { originalProof = photo.zkCapsule.proof }` cannot
    throw (a typed property read), so the fallback proof branch is dead and
    the original proof object is always used.  `created_at ||| Date.now()`
    falls back to the clock only when the stored value is the falsy 0. -/
def generateUpdatedCapsule (photo : SavedPhoto) (revealedClaims : RevealedClaims)
    (selectedLevels : SelectedLevels) (now : Int) : ZKCapsule :=
  let existingCapsule := photo.zkCapsule
  let newPublicClaims := existingCapsule.public_claims
  let newPublicClaims := rset newPublicClaims "time_within_month" (boolStr revealedClaims.time)
  let newPublicClaims := rset newPublicClaims "location_in_region" (boolStr revealedClaims.location)
  let newPublicClaims := rset newPublicClaims "device_trusted" (boolStr revealedClaims.device)
  let newPublicClaims := rset newPublicClaims "photo_authentic" (boolStr revealedClaims.authentic)
  let newPublicClaims := rset newPublicClaims "image_content_revealed" (boolStr revealedClaims.image)
  let newPublicClaims := rset newPublicClaims "time_level" selectedLevels.time
  let newPublicClaims := rset newPublicClaims "location_level" selectedLevels.location
  let originalProof := photo.zkCapsule.proof
  { capsule_id := existingCapsule.capsule_id
    public_claims := newPublicClaims
    proof := originalProof
    metadata :=
      { proof_scheme := existingCapsule.metadata.proof_scheme
        circuit_version := existingCapsule.metadata.circuit_version
        image_hash := existingCapsule.metadata.image_hash
        verification_key := existingCapsule.metadata.verification_key
        ipfsCid := existingCapsule.metadata.ipfsCid
        ipfsUrl := existingCapsule.metadata.ipfsUrl
        walrusBlobId := none
        storageType := none
        created_at := if existingCapsule.metadata.created_at = 0 then now
          else existingCapsule.metadata.created_at } }

/-- `getClaimDescription` (ShareModal.tsx lines 1216-1243): each case shows the
    stored human-readable claim string only when the claim is revealed AND the
    string is truthy; in every other situation — including a missing claim and
    the default case — it yields the generic `"Private"`. -/
def getClaimDescription (currentPhoto : SavedPhoto) (revealedClaims : RevealedClaims)
    (claimType : String) : String :=
  let pc := currentPhoto.zkCapsule.public_claims
  if claimType = "time" then
    match rget pc "time_claim" with
    | some v => if revealedClaims.time && !v.isEmpty then v else "Private"
    | none => "Private"
  else if claimType = "location" then
    match rget pc "location_claim" with
    | some v => if revealedClaims.location && !v.isEmpty then v else "Private"
    | none => "Private"
  else if claimType = "device" then
    match rget pc "device_claim" with
    | some v => if revealedClaims.device && !v.isEmpty then v else "Private"
    | none => "Private"
  else if claimType = "authentic" then
    match rget pc "authenticity_claim" with
    | some v => if revealedClaims.authentic && !v.isEmpty then v else "Private"
    | none => "Private"
  else if claimType = "image" then
    match rget pc "image_content_claim" with
    | some v => if revealedClaims.image && !v.isEmpty then v else "Private"
    | none => "Private"
  else "Private"

/-- A parsed JSON value, for the verifier-side parser. -/
inductive Json where
  | null : Json
  | bool : Bool → Json
  | num : Int → Json
  | str : String → Json
  | arr : List Json → Json
  | obj : List (String × Json) → Json

/-- JS truthiness of a JSON value. -/
def jsTruthy : Json → Bool
  | .null => false
  | .bool b => b
  | .num n => n != 0
  | .str s => !s.isEmpty
  | .arr _ => true
  | .obj _ => true

/-- First-match association lookup inside a JSON object. -/
def jlookup : List (String × Json) → String → Json
  | [], _ => .null
  | p :: t, k => if p.1 = k then p.2 else jlookup t k

/-- JS property read `j.k`: `null` stands for `undefined` (the modeled code
    only reads properties of values it has already checked to be truthy). -/
def jget (j : Json) (k : String) : Json :=
  match j with
  | .obj fields => jlookup fields k
  | _ => Json.null

/-- `x.length > 0` in JS: defined for strings and arrays, and
    `undefined > 0` is false for everything else. -/
def jlengthPos : Json → Bool
  | .str s => !s.isEmpty
  | .arr l => !l.isEmpty
  | _ => false

/-- Outcome of `verifyProof` as observed by its caller.  `caught msg` is a
    thrown `Error` that the surrounding `try/catch` converts into the
    `invalid` result (the message is only logged; the user-visible alert is
    the same generic "Invalid capsule format or corrupted data" in every
    rejection case, so no unstructured exception ever escapes). -/
inductive VerifyOutcome where
  | valid : VerifyOutcome
  | invalidFormat : VerifyOutcome
  | caught : String → VerifyOutcome
deriving DecidableEq

/-- `verifyProof` (verify.tsx lines 744-791), after `JSON.parse` succeeded:
    the structural validation of a parsed capsule.  No cryptographic check of
    the proof values appears anywhere on this path. -/
def verifyProof (parsed : Json) : VerifyOutcome :=
  if !jsTruthy (jget parsed "capsule_id") || !jsTruthy (jget parsed "public_claims")
      || !jsTruthy (jget parsed "proof") || !jsTruthy (jget parsed "metadata") then
    .caught "Invalid capsule structure - missing required fields"
  else if !jsTruthy (jget (jget parsed "metadata") "verification_key")
      || !jsTruthy (jget (jget parsed "metadata") "proof_scheme") then
    .caught "Invalid metadata structure"
  else
    let hasValidProof := jsTruthy (jget (jget parsed "proof") "a")
      && jsTruthy (jget (jget parsed "proof") "b")
      && jsTruthy (jget (jget parsed "proof") "c")
    let hasValidMetadata := jsTruthy (jget (jget parsed "metadata") "verification_key")
      && jsTruthy (jget (jget parsed "metadata") "image_hash")
    let hasValidCapsuleId := jsTruthy (jget parsed "capsule_id")
      && jlengthPos (jget parsed "capsule_id")
    if hasValidProof && hasValidMetadata && hasValidCapsuleId then .valid else .invalidFormat

/-- Dropping every binding of a key from an object field list. -/
def removeField : List (String × Json) → String → List (String × Json)
  | [], _ => []
  | p :: t, k => if p.1 = k then removeField t k else p :: removeField t k

/-- Removal of one top-level field from a JSON object (non-objects are left
    unchanged); used to state the single-field-removed capsule variants. -/
def removeKey (j : Json) (k : String) : Json :=
  match j with
  | .obj fields => .obj (removeField fields k)
  | other => other

/-- Rewriting the value bound to `"metadata"` in an object field list. -/
def removeMetaField : List (String × Json) → String → List (String × Json)
  | [], _ => []
  | p :: t, k =>
    (if p.1 = "metadata" then (p.1, removeKey p.2 k) else p) :: removeMetaField t k

/-- Removal of one field inside the `metadata` sub-object. -/
def removeMetaKey (j : Json) (k : String) : Json :=
  match j with
  | .obj fields => .obj (removeMetaField fields k)
  | other => other

/-- `loadPrivateVault` (verify.tsx lines 397-407): an AsyncStorage read plus
    `JSON.parse`, both failure modes collapsing to `none`. -/
def loadPrivateVault (storage : String → Option PrivateVault) (capsuleId : String) :
    Option PrivateVault :=
  storage ("@private_vault_" ++ capsuleId)

/-- The `timeLockState` record set by `checkTimeLockStatus`
    (verify.tsx lines 431-437 and 448-454). -/
structure TimeLockState where
  isLocked : Bool
  unlockTime : Option Int
  lockedData : Option String
  currentTime : Option Int
  timeRemaining : Int
deriving DecidableEq

/-- `checkTimeLockStatus` (verify.tsx lines 409-456).  `parseDate` models
    `new Date(string).getTime()` for the ISO `time_lock_until` claim;
    `fetchedNow` is the `fetchGlobalTime()` reading; `storage` is the
    AsyncStorage state.  The locked payload is read from the vault only once
    the lock has expired, and only a truthy `original_values.time_lock_data`
    is exposed. -/
def checkTimeLockStatus (parseDate : String → Int) (fetchedNow : Int)
    (storage : String → Option PrivateVault) (capsule : ZKCapsule) : TimeLockState :=
  match rget capsule.public_claims "time_lock_until" with
  | some untilStr =>
    if untilStr.isEmpty then
      { isLocked := false, unlockTime := none, lockedData := none
        currentTime := none, timeRemaining := 0 }
    else
      let unlockTime := parseDate untilStr
      let currentTime := fetchedNow
      let isLocked := decide (currentTime < unlockTime)
      let timeRemaining := if isLocked then unlockTime - currentTime else 0
      let lockedData :=
        if isLocked then none
        else
          match loadPrivateVault storage capsule.capsule_id with
          | some v =>
            match rget v.original_values "time_lock_data" with
            | some d => if d.isEmpty then none else some d
            | none => none
          | none => none
      { isLocked := isLocked, unlockTime := some unlockTime, lockedData := lockedData
        currentTime := some currentTime, timeRemaining := timeRemaining }
  | none =>
    { isLocked := false, unlockTime := none, lockedData := none
      currentTime := none, timeRemaining := 0 }

/-- A concrete JS environment, for evaluating the model on sample inputs. -/
def trivEnv : JsEnv where
  toLocaleString := fun _ => "1/1/2025, 12:00:00 AM"
  toLocaleDateString := fun _ => "1/1/2025"
  monthYearString := fun _ => "January 2025"
  toISOString := fun _ => "2025-01-01T00:00:00.000Z"
  getFullYear := fun _ => 2025
  getHours := fun _ => 0
  weekStartDateString := fun _ => "12/29/2024"
  numString := fun _ => "0"
  toFixed6 := fun _ => "0.000000"
  platformOS := "ios"
  stringifyMetadata := fun _ => "metadata-json"

/-- A concrete valid random source (every draw is 0). -/
def zeroRand : RandSrc := fun _ => 0

/-- Independent all-zero random streams for the fifteen salt draws. -/
def zeroRands : Nat → RandSrc := fun _ => zeroRand

/-- A storage primitive that always succeeds. -/
def okStore : String → PrivateVault → Except String Unit := fun _ _ => Except.ok ()

/-- A storage primitive that always fails (storage full / unavailable). -/
def failStore : String → PrivateVault → Except String Unit :=
  fun _ _ => Except.error "storage full"

/-- A concrete proof object (shape of modules/mopro `CircomProof`). -/
def exProof : CircomProof where
  a := { x := "1", y := "2", z := "1" }
  b := { x := ["1", "0"], y := ["2", "0"], z := ["1", "0"] }
  c := { x := "3", y := "4", z := "1" }
  protocol := "groth16"
  curve := "bn128"

/-- Concrete photo metadata, from the end-to-end example of the spec. -/
def exMetadata : PhotoMetadata where
  timestamp := 1700000000000
  location := none
  deviceInfo := "iOS Camera"
  photoHash := "abc123"
  ipfsCid := none

/-- Privacy settings with every disclosure toggle disabled. -/
def exSettingsAllOff : PrivacySettings where
  timeProofEnabled := false
  timeProofLevel := .exact
  locationProofEnabled := false
  locationProofLevel := .exact
  deviceProofEnabled := false
  deviceProofLevel := .devicetype
  identityProofEnabled := false
  imageRevealEnabled := false
  imageRevealLevel := .noreveal
  timeLockEnabled := false
  timeLockUnlockTime := none
  timeLockLockedData := ""
  timeLockLockType := .date
  receiverLockEnabled := false
  receiverLockWalletAddress := ""
  receiverLockEncryptedContent := ""
  saveForFutureEnabled := false
  storageOptionsType := .ipfs
  storageOptionsWalrusBlobId := none
  storageOptionsIpfsCid := none
  storageOptionsIpfsUrl := none

/-- A fallback capsule value used only to destructure `Except` results. -/
def defaultCapsule : ZKCapsule where
  capsule_id := ""
  public_claims := rempty
  proof := exProof
  metadata :=
    { proof_scheme := "", circuit_version := "", image_hash := "", verification_key := ""
      ipfsCid := none, ipfsUrl := none, walrusBlobId := none, storageType := none
      created_at := 0 }

/-- The capsule produced by the pipeline on the concrete all-toggles-off input. -/
def exCapAllOff : ZKCapsule :=
  match generateZKProofPipeline trivEnv zeroRands okStore 7 1700000000000 exMetadata
      exSettingsAllOff exProof "vk" none none with
  | Except.ok cap => cap
  | Except.error _ => defaultCapsule

/-- Concrete capsule metadata for the revision examples. -/
def exCapMeta : CapsuleMetadata where
  proof_scheme := "circom 2"
  circuit_version := "multiplier2_v1"
  image_hash := "abc123"
  verification_key := "vk1"
  ipfsCid := none
  ipfsUrl := none
  walrusBlobId := none
  storageType := none
  created_at := 1700000000000

/-- A saved photo whose capsule has no human-readable claim strings (the
    corresponding fields were hidden at creation) and whose Private Vault has
    been deleted (no storage entry exists for its capsule id). -/
def exPhotoNoClaims : SavedPhoto where
  id := "1"
  timestamp := 1700000000000
  photoUri := "file-p1"
  metadata :=
    { location := none, deviceInfo := "iOS Camera", photoHash := "abc123"
      ipfsCid := none, isVideo := none, duration := none }
  zkCapsule :=
    { capsule_id := "cap1"
      public_claims := [("time_within_month", "false"), ("photo_authentic", "true")]
      proof := exProof
      metadata := exCapMeta }

/-- Revision state attempting to reveal the previously-hidden time field. -/
def exRevealTime : RevealedClaims where
  time := true
  location := false
  device := false
  authentic := false
  image := false

def exLevels : SelectedLevels where
  time := "month"
  location := "country"

/-- An empty vault storage state: every Private Vault entry is missing. -/
def emptyVaultStorage : String → Option PrivateVault := fun _ => none


/-- The metadata fields of the concrete valid capsule JSON. -/
def exMetaFields : List (String × Json) :=
  [("proof_scheme", Json.str "circom 2"), ("circuit_version", Json.str "multiplier2_v1"),
   ("image_hash", Json.str "abc123"), ("verification_key", Json.str "vk1"),
   ("created_at", Json.num 1700000000000)]

/-- A concrete structurally valid capsule JSON value. -/
def exCapsuleJson : Json := Json.obj
  [("capsule_id", Json.str "cap1"),
   ("public_claims", Json.obj []),
   ("proof", Json.obj
     [("a", Json.obj [("x", Json.str "1"), ("y", Json.str "2"), ("z", Json.str "1")]),
      ("b", Json.obj [("x", Json.arr [Json.str "1"])]),
      ("c", Json.obj [("x", Json.str "3")]),
      ("protocol", Json.str "groth16"), ("curve", Json.str "bn128")]),
   ("metadata", Json.obj exMetaFields)]


/-- A concrete capsule carrying a time-lock claim (for the C7 witness). -/
def exCapTimeLock : ZKCapsule where
  capsule_id := "cap7"
  public_claims := [("time_lock_until", "2025-06-01T00:00:00.000Z")]
  proof := exProof
  metadata := exCapMeta

/-- A concrete vault entry holding the locked payload. -/
def exVaultTimeLock : PrivateVault where
  capsule_id := "cap7"
  commitments := rempty
  salts := rempty
  original_values := [("time_lock_data", "secret-X")]

/-- A concrete storage state holding exactly the vault entry of `exCapTimeLock`. -/
def exStorageTimeLock : String → Option PrivateVault :=
  fun k => if k = "@private_vault_cap7" then some exVaultTimeLock else none

/-- A date parser for the witness: the unlock instant is 100 ms. -/
def exParseDate : String → Int := fun _ => 100


theorem rget_rset (r : Rec) (k v k2 : String) :
    rget (rset r k v) k2 = if k = k2 then some v else rget r k2 := by
  induction r with
  | nil =>
    by_cases h : k = k2 <;> simp [rset, rget, h]
  | cons p t ih =>
    by_cases hp : p.1 = k
    · by_cases h : k = k2
      · simp [rset, rget, hp, h]
      · have hpk2 : ¬p.1 = k2 := fun hx => h (hp.symm.trans hx)
        simp [rset, rget, hp, h, hpk2]
    · by_cases h : k = k2
      · subst h
        simp [rset, rget, hp, ih]
      · simp [rset, rget, hp, ih, h]

theorem hasKey_rset (r : Rec) (k v k2 : String) :
    hasKey (rset r k v) k2 = (decide (k = k2) || hasKey r k2) := by
  by_cases h : k = k2 <;> simp [hasKey, rget_rset, h]

theorem hasKey_rempty (k : String) : hasKey rempty k = false := rfl

theorem hasKey_addTimeClaims (env : JsEnv) (m : PhotoMetadata) (s : PrivacySettings) (pc : Rec)
    (k : String) (h1 : ¬"date_exact" = k) (h2 : ¬"date_day" = k)
    (h3 : ¬"date_month" = k) (h4 : ¬"date_year" = k) :
    hasKey (addTimeClaims env m s pc) k = hasKey pc k := by
  unfold addTimeClaims
  split
  · split <;> simp [hasKey_rset, h1, h2, h3, h4]
  · rfl

theorem hasKey_addLocationClaims (env : JsEnv) (m : PhotoMetadata) (s : PrivacySettings) (pc : Rec)
    (k : String) (h1 : ¬"location_exact" = k) (h2 : ¬"location_city" = k)
    (h3 : ¬"location_country" = k) (h4 : ¬"location_continent" = k) :
    hasKey (addLocationClaims env m s pc) k = hasKey pc k := by
  unfold addLocationClaims
  split
  · split
    · split <;> (try split) <;> (try split) <;> simp [hasKey_rset, h1, h2, h3, h4]
    · rfl
  · rfl

theorem hasKey_addDeviceClaims (env : JsEnv) (m : PhotoMetadata) (s : PrivacySettings) (pc : Rec)
    (k : String) (h1 : ¬"device_type" = k) (h2 : ¬"device_platform" = k)
    (h3 : ¬"device_info" = k) :
    hasKey (addDeviceClaims env m s pc) k = hasKey pc k := by
  unfold addDeviceClaims
  split
  · split <;> simp [hasKey_rset, h1, h2, h3]
  · rfl

theorem hasKey_addIdentityClaims (s : PrivacySettings) (pc : Rec)
    (k : String) (h1 : ¬"identity_verified" = k) :
    hasKey (addIdentityClaims s pc) k = hasKey pc k := by
  unfold addIdentityClaims
  split <;> simp [hasKey_rset, h1]

theorem hasKey_addImageClaims (m : PhotoMetadata) (s : PrivacySettings) (pc : Rec)
    (k : String) (h1 : ¬"image_description" = k) (h2 : ¬"image_cid" = k) :
    hasKey (addImageClaims m s pc) k = hasKey pc k := by
  unfold addImageClaims
  split
  · split
    · simp [hasKey_rset, h1]
    · split <;> (try split) <;> simp [hasKey_rset, h2]
    · rfl
  · rfl

theorem hasKey_addTimeLockClaims (env : JsEnv) (s : PrivacySettings) (pc : Rec)
    (k : String) (h1 : ¬"time_lock_until" = k) (h2 : ¬"time_lock_type" = k) :
    hasKey (addTimeLockClaims env s pc) k = hasKey pc k := by
  unfold addTimeLockClaims
  split
  · split <;> simp [hasKey_rset, h1, h2]
  · rfl

theorem hasKey_addReceiverLockClaims (s : PrivacySettings) (pc : Rec)
    (k : String) (h1 : ¬"allowed_address" = k) :
    hasKey (addReceiverLockClaims s pc) k = hasKey pc k := by
  unfold addReceiverLockClaims
  split <;> simp [hasKey_rset, h1]

theorem hasKey_addCircuitResults (tWM lIR dT pA iCR : Option Bool) (pc : Rec)
    (k : String) (h1 : ¬"time_within_month" = k) (h2 : ¬"location_in_region" = k)
    (h3 : ¬"device_trusted" = k) (h4 : ¬"photo_authentic" = k)
    (h5 : ¬"image_content_revealed" = k) :
    hasKey (addCircuitResults tWM lIR dT pA iCR pc) k = hasKey pc k := by
  unfold addCircuitResults
  cases tWM <;> cases lIR <;> cases dT <;> cases pA <;> cases iCR <;>
    simp [hasKey_rset, h1, h2, h3, h4, h5]

theorem hasKey_addHumanClaims (claims : Option HumanClaims) (pc : Rec)
    (k : String) (h1 : ¬"time_claim" = k) (h2 : ¬"location_claim" = k)
    (h3 : ¬"device_claim" = k) (h4 : ¬"authenticity_claim" = k)
    (h5 : ¬"image_content_claim" = k) :
    hasKey (addHumanClaims claims pc) k = hasKey pc k := by
  cases claims with
  | none => rfl
  | some cl =>
    simp only [addHumanClaims]
    split <;> split <;> split <;> split <;> split <;>
      simp [hasKey_rset, h1, h2, h3, h4, h5]

theorem addTimeClaims_disabled (env : JsEnv) (m : PhotoMetadata) (s : PrivacySettings) (pc : Rec)
    (h : s.timeProofEnabled = false) : addTimeClaims env m s pc = pc := by
  simp [addTimeClaims, h]

theorem addLocationClaims_disabled (env : JsEnv) (m : PhotoMetadata) (s : PrivacySettings)
    (pc : Rec) (h : s.locationProofEnabled = false) : addLocationClaims env m s pc = pc := by
  simp [addLocationClaims, h]

theorem addDeviceClaims_disabled (env : JsEnv) (m : PhotoMetadata) (s : PrivacySettings)
    (pc : Rec) (h : s.deviceProofEnabled = false) : addDeviceClaims env m s pc = pc := by
  simp [addDeviceClaims, h]

theorem addIdentityClaims_disabled (s : PrivacySettings) (pc : Rec)
    (h : s.identityProofEnabled = false) : addIdentityClaims s pc = pc := by
  simp [addIdentityClaims, h]

theorem addImageClaims_disabled (m : PhotoMetadata) (s : PrivacySettings) (pc : Rec)
    (h : s.imageRevealEnabled = false) : addImageClaims m s pc = pc := by
  simp [addImageClaims, h]

theorem addTimeLockClaims_disabled (env : JsEnv) (s : PrivacySettings) (pc : Rec)
    (h : s.timeLockEnabled = false) : addTimeLockClaims env s pc = pc := by
  simp [addTimeLockClaims, h]

theorem addReceiverLockClaims_disabled (s : PrivacySettings) (pc : Rec)
    (h : s.receiverLockEnabled = false) : addReceiverLockClaims s pc = pc := by
  simp [addReceiverLockClaims, h]

theorem storePrivateVault_never_fails (setItem : String → PrivateVault → Except String Unit)
    (capsuleId : String) (commitments salts originalValues : Rec) :
    storePrivateVault setItem capsuleId commitments salts originalValues = Except.ok () := by
  simp only [storePrivateVault]
  split <;> rfl

theorem generateZKCapsule_eq (env : JsEnv) (rnd : Nat → RandSrc)
    (setItem : String → PrivateVault → Except String Unit) (now : Nat)
    (m : PhotoMetadata) (s : PrivacySettings) (proof : CircomProof)
    (verificationKey : String) (ipfsCid ipfsUrl : Option String)
    (currentTime : Option Int) (mh : Option String)
    (tWM lIR dT pA iCR : Option Bool) (claims : Option HumanClaims) :
    generateZKCapsule env rnd setItem now m s proof verificationKey ipfsCid ipfsUrl
        currentTime mh tWM lIR dT pA iCR claims =
      Except.ok
        { capsule_id := generateSimpleHash (m.photoHash ++ toString now)
          public_claims := addHumanClaims claims
            (addCircuitResults tWM lIR dT pA iCR (generatePublicClaims env m s))
          proof := proof
          metadata :=
            { proof_scheme := "circom 2"
              circuit_version := "multiplier2_v1"
              image_hash := m.photoHash
              verification_key := verificationKey
              ipfsCid := ipfsCid
              ipfsUrl := ipfsUrl
              walrusBlobId := s.storageOptionsWalrusBlobId
              storageType := some s.storageOptionsType
              created_at :=
                match currentTime with
                | some t => if t = 0 then (now : Int) else t
                | none => (now : Int) } } := by
  simp only [generateZKCapsule, storePrivateVault_never_fails]

/-- C1: for every metadata and privacy settings, even when the vault storage
    primitive always fails, `generateZKCapsule` still returns a capsule:
    `storePrivateVault` catches the storage error and only logs it, so the
    failure is swallowed rather than propagated and the caller receives a
    capsule with no matching vault.  This refutes the all-or-nothing claim
    and exhibits the divergence between the code and the spec. -/
theorem generateZKCapsule_succeeds_despite_storage_failure
    (env : JsEnv) (rnd : Nat → RandSrc) (now : Nat)
    (m : PhotoMetadata) (s : PrivacySettings) (proof : CircomProof)
    (verificationKey : String) (ipfsCid ipfsUrl : Option String)
    (currentTime : Option Int) (mh : Option String)
    (tWM lIR dT pA iCR : Option Bool) (claims : Option HumanClaims) :
    ∃ cap, generateZKCapsule env rnd failStore now m s proof verificationKey ipfsCid ipfsUrl
        currentTime mh tWM lIR dT pA iCR claims = Except.ok cap :=
  ⟨_, generateZKCapsule_eq env rnd failStore now m s proof verificationKey ipfsCid ipfsUrl
    currentTime mh tWM lIR dT pA iCR claims⟩

/-- C2: absence means privacy.  For every metadata and privacy settings, every
    field key governed by a disclosure toggle that is disabled is entirely
    absent from the `public_claims` of the capsule generated by the
    `generateZKProof` pipeline. -/
theorem pipeline_disabled_toggle_keys_absent
    (env : JsEnv) (rnd : Nat → RandSrc)
    (setItem : String → PrivateVault → Except String Unit) (now : Nat) (currentTime : Int)
    (m : PhotoMetadata) (s : PrivacySettings) (proof : CircomProof)
    (verificationKey : String) (ipfsCid ipfsUrl : Option String) (cap : ZKCapsule)
    (hcap : generateZKProofPipeline env rnd setItem now currentTime m s proof
      verificationKey ipfsCid ipfsUrl = Except.ok cap) :
    (s.timeProofEnabled = false →
      hasKey cap.public_claims "date_exact" = false ∧
      hasKey cap.public_claims "date_day" = false ∧
      hasKey cap.public_claims "date_month" = false ∧
      hasKey cap.public_claims "date_year" = false) ∧
    (s.locationProofEnabled = false →
      hasKey cap.public_claims "location_exact" = false ∧
      hasKey cap.public_claims "location_city" = false ∧
      hasKey cap.public_claims "location_country" = false ∧
      hasKey cap.public_claims "location_continent" = false) ∧
    (s.deviceProofEnabled = false →
      hasKey cap.public_claims "device_type" = false ∧
      hasKey cap.public_claims "device_platform" = false ∧
      hasKey cap.public_claims "device_info" = false) ∧
    (s.identityProofEnabled = false →
      hasKey cap.public_claims "identity_verified" = false) ∧
    (s.imageRevealEnabled = false →
      hasKey cap.public_claims "image_description" = false ∧
      hasKey cap.public_claims "image_cid" = false) ∧
    (s.timeLockEnabled = false →
      hasKey cap.public_claims "time_lock_until" = false ∧
      hasKey cap.public_claims "time_lock_type" = false) ∧
    (s.receiverLockEnabled = false →
      hasKey cap.public_claims "allowed_address" = false) := by
  rw [generateZKProofPipeline, generateZKCapsule_eq, Except.ok.injEq] at hcap
  subst hcap
  refine ⟨fun h => ⟨?_, ?_, ?_, ?_⟩, fun h => ⟨?_, ?_, ?_, ?_⟩, fun h => ⟨?_, ?_, ?_⟩,
    fun h => ?_, fun h => ⟨?_, ?_⟩, fun h => ⟨?_, ?_⟩, fun h => ?_⟩ <;>
    simp [generatePublicClaims, hasKey_addHumanClaims, hasKey_addCircuitResults,
      hasKey_addReceiverLockClaims, hasKey_addTimeLockClaims, hasKey_addImageClaims,
      hasKey_addIdentityClaims, hasKey_addDeviceClaims, hasKey_addLocationClaims,
      hasKey_addTimeClaims, addTimeClaims_disabled, addLocationClaims_disabled,
      addDeviceClaims_disabled, addIdentityClaims_disabled, addImageClaims_disabled,
      addTimeLockClaims_disabled, addReceiverLockClaims_disabled, hasKey_rempty, h]

/-- Witness for C2 at the concrete all-toggles-off input. -/
theorem pipeline_disabled_toggle_keys_absent_witness :
    generateZKProofPipeline trivEnv zeroRands okStore 7 1700000000000 exMetadata
      exSettingsAllOff exProof "vk" none none = Except.ok exCapAllOff ∧
    exSettingsAllOff.timeProofEnabled = false ∧
    hasKey exCapAllOff.public_claims "date_exact" = false ∧
    hasKey exCapAllOff.public_claims "allowed_address" = false := by
  have h := pipeline_disabled_toggle_keys_absent trivEnv zeroRands okStore 7 1700000000000
    exMetadata exSettingsAllOff exProof "vk" none none exCapAllOff rfl
  exact ⟨rfl, rfl, (h.1 rfl).1, h.2.2.2.2.2.2 rfl⟩

/-- Counterexample to C3: for the concrete saved photo whose vault entry is
    missing (the storage holds no entry at all) revealing the previously
    hidden time field does NOT fail with a "no original value available"
    error — the revision functions have no failure path and never consult the
    vault.  The display falls back to exactly the generic "Private" value the
    claim rules out, and `generateUpdatedCapsule` still produces an updated
    capsule whose reveal flag was flipped to "true". -/
theorem revision_missing_vault_counterexample :
    emptyVaultStorage ("@private_vault_" ++ exPhotoNoClaims.zkCapsule.capsule_id) = none ∧
    getClaimDescription exPhotoNoClaims exRevealTime "time" = "Private" ∧
    (generateUpdatedCapsule exPhotoNoClaims exRevealTime exLevels 1700000000001).capsule_id
      = "cap1" ∧
    rget (generateUpdatedCapsule exPhotoNoClaims exRevealTime exLevels
      1700000000001).public_claims "time_within_month" = some "true" :=
  ⟨rfl, rfl, rfl, rfl⟩

/-- C3 as amended: the Claim Revision Protocol never consults the Private
    Vault and has no failure path.  Whenever the human-readable claim string
    of a field is absent from the capsule (as it is for a field that was
    hidden at creation, whatever the vault state), the displayed description
    of that field is the generic "Private" for every reveal toggle, and
    `generateUpdatedCapsule` still returns a revised capsule with the same
    capsule id — no "no original value available" error exists. -/
theorem revision_missing_claim_yields_generic_private
    (photo : SavedPhoto) (rc : RevealedClaims) (sl : SelectedLevels) (now : Int)
    (claimType : String)
    (h1 : rget photo.zkCapsule.public_claims "time_claim" = none)
    (h2 : rget photo.zkCapsule.public_claims "location_claim" = none)
    (h3 : rget photo.zkCapsule.public_claims "device_claim" = none)
    (h4 : rget photo.zkCapsule.public_claims "authenticity_claim" = none)
    (h5 : rget photo.zkCapsule.public_claims "image_content_claim" = none) :
    getClaimDescription photo rc claimType = "Private" ∧
    (generateUpdatedCapsule photo rc sl now).capsule_id = photo.zkCapsule.capsule_id := by
  refine ⟨?_, rfl⟩
  unfold getClaimDescription
  split_ifs <;> simp [h1, h2, h3, h4, h5]

/-- Witness for the amended C3 at the concrete vaultless photo. -/
theorem revision_missing_claim_yields_generic_private_witness :
    rget exPhotoNoClaims.zkCapsule.public_claims "time_claim" = none ∧
    getClaimDescription exPhotoNoClaims exRevealTime "time" = "Private" ∧
    (generateUpdatedCapsule exPhotoNoClaims exRevealTime exLevels 5).capsule_id
      = exPhotoNoClaims.zkCapsule.capsule_id :=
  ⟨rfl,
    (revision_missing_claim_yields_generic_private exPhotoNoClaims exRevealTime exLevels 5
      "time" rfl rfl rfl rfl rfl).1,
    (revision_missing_claim_yields_generic_private exPhotoNoClaims exRevealTime exLevels 5
      "time" rfl rfl rfl rfl rfl).2⟩

/-- C4: claim revision is frame-preserving.  For every saved photo, reveal
    flags and levels, the revised capsule keeps the original `capsule_id` and
    the original `proof` object unchanged (the proof is not regenerated), and
    copies `proof_scheme`, `circuit_version`, `image_hash` and
    `verification_key` verbatim from the original capsule metadata. -/
theorem generateUpdatedCapsule_frame_preserving
    (photo : SavedPhoto) (rc : RevealedClaims) (sl : SelectedLevels) (now : Int) :
    (generateUpdatedCapsule photo rc sl now).capsule_id = photo.zkCapsule.capsule_id ∧
    (generateUpdatedCapsule photo rc sl now).proof = photo.zkCapsule.proof ∧
    (generateUpdatedCapsule photo rc sl now).metadata.proof_scheme
      = photo.zkCapsule.metadata.proof_scheme ∧
    (generateUpdatedCapsule photo rc sl now).metadata.circuit_version
      = photo.zkCapsule.metadata.circuit_version ∧
    (generateUpdatedCapsule photo rc sl now).metadata.image_hash
      = photo.zkCapsule.metadata.image_hash ∧
    (generateUpdatedCapsule photo rc sl now).metadata.verification_key
      = photo.zkCapsule.metadata.verification_key :=
  ⟨rfl, rfl, rfl, rfl, rfl, rfl⟩

theorem jlookup_removeField_self (fs : List (String × Json)) (k : String) :
    jlookup (removeField fs k) k = Json.null := by
  induction fs with
  | nil => rfl
  | cons p t ih =>
    by_cases h : p.1 = k
    · simp [removeField, h, ih]
    · simp [removeField, h, jlookup, ih]

theorem jlookup_removeField_ne (fs : List (String × Json)) (k k2 : String) (h : ¬k2 = k) :
    jlookup (removeField fs k) k2 = jlookup fs k2 := by
  have hsym : ¬k = k2 := fun hx => h hx.symm
  induction fs with
  | nil => rfl
  | cons p t ih =>
    by_cases hp : p.1 = k
    · have hpk2 : ¬p.1 = k2 := by
        rw [hp]
        exact hsym
      simp [removeField, hp, jlookup, hpk2, hsym, ih]
    · by_cases hpk2 : p.1 = k2 <;> simp [removeField, hp, jlookup, hpk2, h, hsym, ih]

theorem jget_removeKey_self (j : Json) (k : String) : jget (removeKey j k) k = Json.null := by
  cases j <;> simp [removeKey, jget, jlookup_removeField_self]

theorem jget_removeKey_ne (j : Json) (k k2 : String) (h : ¬k2 = k) :
    jget (removeKey j k) k2 = jget j k2 := by
  cases j <;> simp [removeKey, jget, jlookup_removeField_ne, h]

theorem jlookup_removeMetaField (fs : List (String × Json)) (mk k2 : String) :
    jlookup (removeMetaField fs mk) k2 =
      if k2 = "metadata" then removeKey (jlookup fs "metadata") mk else jlookup fs k2 := by
  induction fs with
  | nil =>
    simp only [removeMetaField, jlookup]
    split <;> rfl
  | cons p t ih =>
    by_cases hp : p.1 = "metadata"
    · by_cases hk : k2 = "metadata"
      · simp [removeMetaField, hp, jlookup, hk]
      · have hpk2 : ¬p.1 = k2 := by
          rw [hp]
          exact fun hx => hk hx.symm
        have hmk2 : ¬"metadata" = k2 := fun hx => hk hx.symm
        simp [removeMetaField, hp, jlookup, hk, hpk2, hmk2, ih]
    · by_cases hpk2 : p.1 = k2
      · have hk : ¬k2 = "metadata" := by
          rw [← hpk2]
          exact hp
        simp [removeMetaField, hp, jlookup, hpk2, hk]
      · simp [removeMetaField, hp, jlookup, hpk2, ih]

theorem jget_removeMetaKey (j : Json) (mk k2 : String) :
    jget (removeMetaKey j mk) k2 =
      if k2 = "metadata" then removeKey (jget j "metadata") mk else jget j k2 := by
  cases j <;> simp [removeMetaKey, jget, jlookup_removeMetaField, removeKey]

theorem jsTruthy_of_jget (j : Json) (k : String) (h : jsTruthy (jget j k) = true) :
    jsTruthy j = true := by
  cases j <;> simp [jget, jsTruthy] at h ⊢

theorem jsTruthy_str (s : String) : jsTruthy (Json.str s) = !s.isEmpty := rfl

theorem jsTruthy_obj (fs : List (String × Json)) : jsTruthy (Json.obj fs) = true := rfl

theorem jsTruthy_null : jsTruthy Json.null = false := rfl

theorem jlengthPos_str (s : String) : jlengthPos (Json.str s) = !s.isEmpty := rfl

theorem jget_obj (fs : List (String × Json)) (k : String) :
    jget (Json.obj fs) k = jlookup fs k := rfl

/-- C6: verification is purely structural.  Any JSON value with a non-empty
    string `capsule_id`, an object `public_claims`, truthy `proof.a`,
    `proof.b`, `proof.c`, and truthy `metadata.verification_key`,
    `metadata.proof_scheme`, `metadata.image_hash` is reported `valid`; the
    proof values are never checked against the verification key (the model of
    the verify path contains no cryptographic computation at all). -/
theorem verifyProof_structural_valid (j : Json) (cid : String)
    (pcf : List (String × Json))
    (hcid : jget j "capsule_id" = Json.str cid)
    (hcidne : cid.isEmpty = false)
    (hpc : jget j "public_claims" = Json.obj pcf)
    (ha : jsTruthy (jget (jget j "proof") "a") = true)
    (hb : jsTruthy (jget (jget j "proof") "b") = true)
    (hc : jsTruthy (jget (jget j "proof") "c") = true)
    (hvk : jsTruthy (jget (jget j "metadata") "verification_key") = true)
    (hps : jsTruthy (jget (jget j "metadata") "proof_scheme") = true)
    (hih : jsTruthy (jget (jget j "metadata") "image_hash") = true) :
    verifyProof j = VerifyOutcome.valid := by
  have hproof : jsTruthy (jget j "proof") = true := jsTruthy_of_jget _ _ ha
  have hmeta : jsTruthy (jget j "metadata") = true := jsTruthy_of_jget _ _ hvk
  simp [verifyProof, hcid, hpc, ha, hb, hc, hvk, hps, hih, hproof, hmeta,
    jsTruthy_str, jsTruthy_obj, jlengthPos_str, hcidne]

/-- Witness for C6 at the concrete valid capsule. -/
theorem verifyProof_structural_valid_witness :
    jget exCapsuleJson "capsule_id" = Json.str "cap1" ∧
    verifyProof exCapsuleJson = VerifyOutcome.valid :=
  ⟨rfl, verifyProof_structural_valid exCapsuleJson "cap1" [] rfl rfl rfl rfl rfl rfl rfl
    rfl rfl⟩

/-- Counterexample to C5: the parser rejects the four single-field-removed
    variants but NOT with a distinguishable error for each — removing
    `capsule_id` and removing `public_claims` produce the identical outcome
    (the same thrown message, caught into the same generic user-visible
    rejection). -/
theorem verifyProof_indistinguishable_errors_counterexample :
    verifyProof (removeKey exCapsuleJson "capsule_id")
      = verifyProof (removeKey exCapsuleJson "public_claims") ∧
    verifyProof (removeKey exCapsuleJson "capsule_id")
      = VerifyOutcome.caught "Invalid capsule structure - missing required fields" :=
  ⟨rfl, rfl⟩

/-- C5 as amended: every single-field-removed variant of a structurally valid
    capsule is rejected with a structured outcome (the thrown `Error` is
    caught, never escaping to the caller), but there are only two distinct
    internal messages: missing `capsule_id`, `public_claims` or `proof` all
    yield "Invalid capsule structure - missing required fields", and missing
    `metadata.verification_key` yields "Invalid metadata structure"; the
    user-visible alert is the same generic text in all four cases. -/
theorem verifyProof_rejects_each_missing_field (j : Json)
    (mfs : List (String × Json))
    (h1 : jsTruthy (jget j "capsule_id") = true)
    (h2 : jsTruthy (jget j "public_claims") = true)
    (h3 : jsTruthy (jget j "proof") = true)
    (h4 : jget j "metadata" = Json.obj mfs) :
    verifyProof (removeKey j "capsule_id")
      = VerifyOutcome.caught "Invalid capsule structure - missing required fields" ∧
    verifyProof (removeKey j "public_claims")
      = VerifyOutcome.caught "Invalid capsule structure - missing required fields" ∧
    verifyProof (removeKey j "proof")
      = VerifyOutcome.caught "Invalid capsule structure - missing required fields" ∧
    verifyProof (removeMetaKey j "verification_key")
      = VerifyOutcome.caught "Invalid metadata structure" := by
  refine ⟨?_, ?_, ?_, ?_⟩
  · simp [verifyProof, jget_removeKey_self, jsTruthy_null]
  · simp [verifyProof, jget_removeKey_self, jget_removeKey_ne, h1, jsTruthy_null]
  · simp [verifyProof, jget_removeKey_self, jget_removeKey_ne, h1, h2, jsTruthy_null]
  · have hcap : jget (removeMetaKey j "verification_key") "capsule_id" = jget j "capsule_id" := by
      rw [jget_removeMetaKey, if_neg (by decide)]
    have hpc : jget (removeMetaKey j "verification_key") "public_claims"
        = jget j "public_claims" := by
      rw [jget_removeMetaKey, if_neg (by decide)]
    have hproof : jget (removeMetaKey j "verification_key") "proof" = jget j "proof" := by
      rw [jget_removeMetaKey, if_neg (by decide)]
    have hmeta : jget (removeMetaKey j "verification_key") "metadata"
        = Json.obj (removeField mfs "verification_key") := by
      rw [jget_removeMetaKey, if_pos rfl, h4, removeKey]
    have hvk : jget (jget (removeMetaKey j "verification_key") "metadata") "verification_key"
        = Json.null := by
      rw [hmeta, jget_obj, jlookup_removeField_self]
    simp [verifyProof, hcap, hpc, hproof, hmeta, hvk, h1, h2, h3,
      jget_obj, jlookup_removeField_self, jsTruthy_null, jsTruthy_obj]

/-- Witness for the amended C5 at the concrete valid capsule. -/
theorem verifyProof_rejects_each_missing_field_witness :
    jsTruthy (jget exCapsuleJson "capsule_id") = true ∧
    verifyProof (removeKey exCapsuleJson "capsule_id")
      = VerifyOutcome.caught "Invalid capsule structure - missing required fields" ∧
    verifyProof (removeMetaKey exCapsuleJson "verification_key")
      = VerifyOutcome.caught "Invalid metadata structure" :=
  ⟨rfl,
    (verifyProof_rejects_each_missing_field exCapsuleJson exMetaFields rfl rfl rfl rfl).1,
    (verifyProof_rejects_each_missing_field exCapsuleJson exMetaFields rfl rfl rfl rfl).2.2.2⟩

/-- C7: the time-lock state machine.  For every capsule carrying a (truthy)
    `time_lock_until` claim parsed to instant T: when the current time is
    strictly before T the state is Locked with `timeRemaining = T - now > 0`
    and no locked payload exposed; when the current time is at or past T the
    state is Unlocked, the Private Vault entry for the capsule id is
    consulted, its truthy `original_values.time_lock_data` becomes visible if
    present, and otherwise no data is exposed. -/
theorem checkTimeLockStatus_state_machine (parseDate : String → Int) (fetchedNow : Int)
    (storage : String → Option PrivateVault) (capsule : ZKCapsule) (untilStr : String)
    (hclaim : rget capsule.public_claims "time_lock_until" = some untilStr)
    (hne : untilStr.isEmpty = false) :
    (fetchedNow < parseDate untilStr →
      (checkTimeLockStatus parseDate fetchedNow storage capsule).isLocked = true ∧
      (checkTimeLockStatus parseDate fetchedNow storage capsule).timeRemaining
        = parseDate untilStr - fetchedNow ∧
      0 < (checkTimeLockStatus parseDate fetchedNow storage capsule).timeRemaining ∧
      (checkTimeLockStatus parseDate fetchedNow storage capsule).lockedData = none) ∧
    (parseDate untilStr ≤ fetchedNow →
      (checkTimeLockStatus parseDate fetchedNow storage capsule).isLocked = false ∧
      (checkTimeLockStatus parseDate fetchedNow storage capsule).unlockTime
        = some (parseDate untilStr) ∧
      (∀ v d, loadPrivateVault storage capsule.capsule_id = some v →
        rget v.original_values "time_lock_data" = some d → d.isEmpty = false →
        (checkTimeLockStatus parseDate fetchedNow storage capsule).lockedData = some d) ∧
      (loadPrivateVault storage capsule.capsule_id = none →
        (checkTimeLockStatus parseDate fetchedNow storage capsule).lockedData = none) ∧
      (∀ v, loadPrivateVault storage capsule.capsule_id = some v →
        rget v.original_values "time_lock_data" = none →
        (checkTimeLockStatus parseDate fetchedNow storage capsule).lockedData = none)) := by
  constructor
  · intro hlt
    have hnotle : ¬parseDate untilStr ≤ fetchedNow := not_le.mpr hlt
    simp [checkTimeLockStatus, hclaim, hne, hlt, TimeLockState.isLocked,
      TimeLockState.timeRemaining, TimeLockState.lockedData]
  · intro hge
    have hnotlt : ¬fetchedNow < parseDate untilStr := not_lt.mpr hge
    refine ⟨?_, ?_, ?_, ?_, ?_⟩
    · simp [checkTimeLockStatus, hclaim, hne, hnotlt]
    · simp [checkTimeLockStatus, hclaim, hne, hnotlt]
    · intro v d hv hd hdne
      simp [checkTimeLockStatus, hclaim, hne, hnotlt, hv, hd, hdne]
    · intro hv
      simp [checkTimeLockStatus, hclaim, hne, hnotlt, hv]
    · intro v hv hd
      simp [checkTimeLockStatus, hclaim, hne, hnotlt, hv, hd]

/-- Witness for C7 at the concrete time-locked capsule: at time 101 ≥ 100 the
    state is unlocked and the vaulted payload "secret-X" is exposed. -/
theorem checkTimeLockStatus_state_machine_witness :
    rget exCapTimeLock.public_claims "time_lock_until"
      = some "2025-06-01T00:00:00.000Z" ∧
    (checkTimeLockStatus exParseDate 101 exStorageTimeLock exCapTimeLock).isLocked = false ∧
    (checkTimeLockStatus exParseDate 101 exStorageTimeLock exCapTimeLock).lockedData
      = some "secret-X" := by
  have h := checkTimeLockStatus_state_machine exParseDate 101 exStorageTimeLock exCapTimeLock
    "2025-06-01T00:00:00.000Z" rfl rfl
  exact ⟨rfl, (h.2 (by decide)).1,
    (h.2 (by decide)).2.2.1 exVaultTimeLock "secret-X" rfl rfl rfl⟩

/-- C8: the commitment builder is a pure deterministic function — two
    invocations of `poseidonCommitment` on equal value/salt pairs produce the
    identical output string. -/
theorem poseidonCommitment_deterministic (v1 s1 v2 s2 : String)
    (hv : v1 = v2) (hs : s1 = s2) :
    poseidonCommitment v1 s1 = poseidonCommitment v2 s2 := by
  rw [hv, hs]

/-- Witness for C8 at a concrete value/salt pair. -/
theorem poseidonCommitment_deterministic_witness :
    ("photo-hash-abc" : String) = "photo-hash-abc" ∧ ("123456" : String) = "123456" ∧
    poseidonCommitment "photo-hash-abc" "123456" = poseidonCommitment "photo-hash-abc" "123456" :=
  ⟨rfl, rfl, poseidonCommitment_deterministic "photo-hash-abc" "123456" "photo-hash-abc"
    "123456" rfl rfl⟩

theorem digitChar_isDigit (n : Nat) (h : n < 10) : (Nat.digitChar n).isDigit = true := by
  interval_cases n <;> decide

/-- C9: every salt produced by the pipeline salt generator is a string of
    decimal digits only, whose length lies in the set 6..9, for every valid
    `Math.random()` source. -/
theorem generateSalt_digit_string (rnd : RandSrc) (h : validRand rnd) :
    ((generateSalt rnd).length = 6 ∨ (generateSalt rnd).length = 7 ∨
      (generateSalt rnd).length = 8 ∨ (generateSalt rnd).length = 9) ∧
    ∀ c ∈ (generateSalt rnd).data, c.isDigit = true := by
  constructor
  · have h0 := h 0
    have hfl : (0 : Int) ≤ Int.floor (rnd 0 * 4) := by
      apply Int.floor_nonneg.mpr
      nlinarith [h0.1]
    have hfu : Int.floor (rnd 0 * 4) < 4 := by
      apply Int.floor_lt.mpr
      push_cast
      nlinarith [h0.2]
    have hlen : (generateSalt rnd).length = 6 + (Int.floor (rnd 0 * 4)).toNat := by
      simp [generateSalt, String.length]
    omega
  · intro c hc
    simp only [generateSalt, String.mk, List.mem_map] at hc
    obtain ⟨i, _, rfl⟩ := hc
    have hi := h (i + 1)
    have hfl : (0 : Int) ≤ Int.floor (rnd (i + 1) * 10) := by
      apply Int.floor_nonneg.mpr
      nlinarith [hi.1]
    have hfu : Int.floor (rnd (i + 1) * 10) < 10 := by
      apply Int.floor_lt.mpr
      push_cast
      nlinarith [hi.2]
    exact digitChar_isDigit _ (by omega)

/-- Witness for C9 at the concrete all-zero random source. -/
theorem generateSalt_digit_string_witness :
    validRand zeroRand ∧
    ((generateSalt zeroRand).length = 6 ∨ (generateSalt zeroRand).length = 7 ∨
      (generateSalt zeroRand).length = 8 ∨ (generateSalt zeroRand).length = 9) ∧
    ∀ c ∈ (generateSalt zeroRand).data, c.isDigit = true := by
  have hvalid : validRand zeroRand := by
    intro i
    constructor <;> norm_num [zeroRand]
  exact ⟨hvalid, generateSalt_digit_string zeroRand hvalid⟩

/-- C10: the location claim deriver is total and falls back gracefully.  For
    every disclosure level string, an absent location yields the fixed
    fallback "Location not available", and a present location whose
    city/country/continent field (as requested by the level) is absent yields
    the corresponding generic fallback phrase; no error is possible (the
    deriver is a total function). -/
theorem generateLocationClaim_total_fallback (env : JsEnv) (level : String) :
    generateLocationClaim env none level = "Location not available" ∧
    (∀ loc : Location, loc.city = none →
      generateLocationClaim env (some loc) "city" = "In local city") ∧
    (∀ loc : Location, loc.country = none →
      generateLocationClaim env (some loc) "country" = "In authorized country") ∧
    (∀ loc : Location, loc.continent = none →
      generateLocationClaim env (some loc) "continent" = "In authorized continent") ∧
    (∀ loc : Location, loc.country = none → ¬level = "exact" → ¬level = "city" →
      ¬level = "country" → ¬level = "continent" →
      generateLocationClaim env (some loc) level = "In authorized region") := by
  refine ⟨rfl, ?_, ?_, ?_, ?_⟩
  · intro loc hc
    simp [generateLocationClaim, hc]
  · intro loc hc
    simp [generateLocationClaim, hc]
  · intro loc hc
    simp [generateLocationClaim, hc]
  · intro loc hc h1 h2 h3 h4
    simp [generateLocationClaim, hc, h1, h2, h3, h4]

/-- Witness for C10 at a concrete location with no named fields and an
    unknown level string (the switch default). -/
theorem generateLocationClaim_total_fallback_witness :
    generateLocationClaim trivEnv none "city" = "Location not available" ∧
    (Location.mk 0.0 0.0 none none none).city = none ∧
    generateLocationClaim trivEnv (some (Location.mk 0.0 0.0 none none none)) "city"
      = "In local city" :=
  ⟨(generateLocationClaim_total_fallback trivEnv "city").1, rfl,
    (generateLocationClaim_total_fallback trivEnv "city").2.1
      (Location.mk 0.0 0.0 none none none) rfl⟩
